import Mathlib

/-!
Shallow embedding of the asynchronous medical-document ingestion pipeline:
the background orchestrator processReportAsync (server routes module), the
pure document classifier detectDocumentType and the OCR resource handling
from server/services/ocr.ts, and the medication-record normalization from
server/storage.ts.

External collaborators (text extractors, the analysis engine, the report
store) are modelled by an environment value that fixes the outcome of every
external call a run makes; the orchestrator itself is a pure function from
that environment to the ordered trace of collaborator interactions it
performs.  Exceptions thrown by collaborators are modelled as values; the
orchestrator's own catch blocks are translated branch by branch.
-/

set_option maxHeartbeats 1000000

namespace MedReport

/-- Outcome of a JavaScript call that can either return a value or throw an
exception carrying a message string. -/
inductive JsResult (α : Type) where
  | ok (val : α)
  | exn (msg : String)
deriving DecidableEq, Repr

/-- ASCII lowering of a whole string, character by character, mirroring what
String.prototype.toLowerCase does on the ASCII keywords the classifier uses.
Char.toLower maps the range A-Z to a-z and leaves everything else unchanged. -/
def toLowerCase (s : String) : String :=
  String.mk (s.data.map Char.toLower)

/-- Decidable substring containment on character lists, mirroring
String.prototype.includes. -/
def hasSubstrChars (hay needle : List Char) : Bool :=
  match hay with
  | [] => needle.isEmpty
  | _ :: rest => needle.isPrefixOf hay || hasSubstrChars rest needle

/-- String.prototype.includes, via the underlying character lists. -/
def includes (s sub : String) : Bool :=
  hasSubstrChars s.data sub.data

/-- String.prototype.replace with a single-character string pattern replaces
only the first occurrence; the pipeline uses it to humanize a report type
(underscore to space) when composing a timeline title. -/
def replaceFirstUnderscore : List Char → List Char
  | [] => []
  | c :: cs => if c = ('_') then (' ') :: cs else c :: replaceFirstUnderscore cs

/-- Humanized report type: reportType.replace underscore-to-space. -/
def humanizeType (s : String) : String :=
  String.mk (replaceFirstUnderscore s.data)

/-- Document classifier from server/services/ocr.ts: case-insensitive keyword
match over the extracted text, in fixed precedence order (prescription
keywords, then blood-test keywords, then imaging keywords, else general). -/
def detectDocumentType (text : String) : String :=
  let lowerText := toLowerCase text
  if includes lowerText ("prescription") || includes lowerText ("medication")
      || includes lowerText ("dosage") then
    "prescription"
  else if includes lowerText ("blood") || includes lowerText ("glucose")
      || includes lowerText ("cholesterol") || includes lowerText ("hemoglobin")
      || includes lowerText ("platelet") then
    "blood_test"
  else if includes lowerText ("x-ray") || includes lowerText ("radiograph")
      || includes lowerText ("imaging") then
    "x-ray"
  else
    "general"

/-- One medication entry as returned by the analysis engine's
extractMedicationInfo; sideEffects may be absent (undefined in JS). -/
structure MedEntry where
  name : String
  dosage : String
  frequency : String
  instructions : String
  sideEffects : Option (List String)
deriving DecidableEq, Repr

/-- Structured result of the analysis engine's analyzeMedicalReport; the
orchestrator reads only its summary field and stores the object whole. -/
structure Analysis where
  summary : String
deriving DecidableEq, Repr

/-- Value stored in the report's extractedData field: the full analysis, a
medications wrapper, or the fixed placeholder object written when the
analysis engine threw. -/
inductive ExtractedData where
  | analysisData (a : Analysis)
  | medications (ms : List MedEntry)
  | placeholder
deriving DecidableEq, Repr

/-- The fields of a stored report that the pipeline reads back via getReport. -/
structure Report where
  id : String
  userId : String
  fileName : String
deriving DecidableEq, Repr

/-- A partial report update as passed to storage.updateReport: a field that is
none is absent from the update; for analysis and extractedData the inner
Option distinguishes an explicit null from a value. -/
structure ReportUpdate where
  originalText : Option String := none
  reportType : Option String := none
  analysis : Option (Option Analysis) := none
  extractedData : Option (Option ExtractedData) := none
  summary : Option String := none
  status : Option String := none
deriving DecidableEq, Repr

/-- The medication-creation request the pipeline passes to
storage.createMedication. -/
structure InsertMedication where
  userId : String
  reportId : String
  name : String
  dosage : String
  frequency : String
  instructions : String
  sideEffects : String
  isActive : Bool
deriving DecidableEq, Repr

/-- The timeline-entry creation request the pipeline passes to
storage.createHealthTimelineEntry (the wall-clock date field is not
modelled). -/
structure InsertTimeline where
  userId : String
  reportId : String
  eventType : String
  title : String
  description : String
  metrics : Option ExtractedData
deriving DecidableEq, Repr

/-- One collaborator interaction performed by a pipeline run, in order.  Each
fallible call carries the outcome the environment assigned to it (for an
update or create, whether the call succeeded or threw). -/
inductive Event where
  | updateReport (fields : ReportUpdate) (ok : Bool)
  | getReport (result : Option Report)
  | callAnalyze (text : String) (outcome : JsResult Analysis)
  | callExtractMeds (text : String) (outcome : JsResult (List MedEntry))
  | createMedication (m : InsertMedication) (ok : Bool)
  | createTimeline (e : InsertTimeline) (ok : Bool)
deriving DecidableEq, Repr

/-- Environment of one orchestrator run: the outcome of every external call
the run can make.  extract is the Stage-1 extractor outcome (PDF or OCR
path); medCreateOk gives, per index in the medication list, whether that
createMedication call succeeds; the remaining flags say whether each store
operation succeeds or throws. -/
structure Env where
  extract : JsResult String
  analyzeOutcome : JsResult Analysis
  medsOutcome : JsResult (List MedEntry)
  checkpointOk : Bool
  getReportMeds : Option Report
  medCreateOk : Nat → Bool
  finalOk : Bool
  getReportTimeline : Option Report
  timelineOk : Bool
  failsafeOk : Bool

/-- Generic summary substituted when the analysis engine throws. -/
def fallbackSummary : String :=
  "Document processed successfully. Professional medical review recommended."

/-- Summary template for prescriptions. -/
def prescriptionSummary (n : Nat) : String :=
  "Prescription contains " ++ toString n ++ " medication(s)"

/-- Generic message written by the outer failure envelope. -/
def technicalFailureMessage : String :=
  "Processing failed due to technical error. Please try uploading again."

/-- The medication-creation request built in the prescription branch of the
pipeline: owner and report id come from the fetched report, sideEffects is
the entry's list joined with a comma-space (empty string when absent, since
undefined joined falls back to the empty string via the or-else). -/
def mkInsertMed (r : Report) (m : MedEntry) : InsertMedication :=
  { userId := r.userId
    reportId := r.id
    name := m.name
    dosage := m.dosage
    frequency := m.frequency
    instructions := m.instructions
    sideEffects := String.intercalate (", ") (m.sideEffects.getD [])
    isActive := true }

/-- Result of the analysis stage: the events it performed and the values of
the analysis, extractedData and summary variables afterwards. -/
structure Stage2Out where
  events : List Event
  analysis : Option Analysis
  extractedData : Option ExtractedData
  summary : String
deriving Repr

/-- Stage 2 of processReportAsync: dispatch on the report type; engine
exceptions are caught and replaced by the generic fallback summary and the
placeholder object; in the prescription branch each medication creation is
attempted individually and an individual failure is swallowed. -/
def stage2 (env : Env) (reportType text : String) : Stage2Out :=
  if reportType = "blood_test" || reportType = "general" then
    match env.analyzeOutcome with
    | .ok a =>
        { events := [Event.callAnalyze text env.analyzeOutcome]
          analysis := some a
          extractedData := some (ExtractedData.analysisData a)
          summary := a.summary }
    | .exn _ =>
        { events := [Event.callAnalyze text env.analyzeOutcome]
          analysis := none
          extractedData := some ExtractedData.placeholder
          summary := fallbackSummary }
  else if reportType = "prescription" then
    match env.medsOutcome with
    | .ok ms =>
        let medEvents :=
          match env.getReportMeds with
          | some r =>
              ms.enum.map (fun p =>
                Event.createMedication (mkInsertMed r p.2) (env.medCreateOk p.1))
          | none => []
        { events := Event.callExtractMeds text env.medsOutcome
            :: Event.getReport env.getReportMeds :: medEvents
          analysis := none
          extractedData := some (ExtractedData.medications ms)
          summary := prescriptionSummary ms.length }
    | .exn _ =>
        { events := [Event.callExtractMeds text env.medsOutcome]
          analysis := none
          extractedData := some ExtractedData.placeholder
          summary := fallbackSummary }
  else
    { events := [], analysis := none, extractedData := none, summary := "" }

/-- Timeline section of the pipeline: fetch the report and, when present,
attempt to create the health-timeline entry; a creation failure is caught
and has no further effect. -/
def timelinePart (env : Env) (reportType summary : String)
    (extractedData : Option ExtractedData) : List Event :=
  match env.getReportTimeline with
  | some r =>
      [Event.getReport (some r),
       Event.createTimeline
         { userId := r.userId
           reportId := r.id
           eventType := if reportType = "prescription" then "medication_change" else "lab_result"
           title := humanizeType reportType ++ (" - ") ++ r.fileName
           description := summary
           metrics := extractedData }
         env.timelineOk]
  | none => [Event.getReport none]

/-- The outer failure envelope: one best-effort attempt to mark the report
failed with a generic message; if that update also throws it is only logged. -/
def failsafeEvents (env : Env) : List Event :=
  [Event.updateReport
    { status := some "failed", summary := some technicalFailureMessage }
    env.failsafeOk]

/-- Text salvaged by Stage 1: the extracted text on success, the exception
message on failure. -/
def salvagedText (env : Env) : String :=
  match env.extract with
  | .ok t => t
  | .exn m => m

/-- Whether Stage 1 recorded an extraction failure. -/
def extractionFailedOf (env : Env) : Bool :=
  match env.extract with
  | .ok _ => false
  | .exn _ => true

/-- Report type determined by Stage 1: the classifier runs only when
extraction succeeded with non-empty text, otherwise the placeholder general
remains. -/
def reportTypeOf (env : Env) : String :=
  match env.extract with
  | .ok t => if t.length > 0 then detectDocumentType t else "general"
  | .exn _ => "general"

/-- The background orchestrator processReportAsync as the ordered trace of
collaborator interactions of one run.  Stage 1 (extraction plus classifier,
exceptions caught locally), the checkpoint update of originalText and
reportType, Stage 2 (analysis dispatch), the final status write, and the
timeline section guarded on extraction success; a throwing checkpoint or
final update diverts to the outer failure envelope. -/
def processReportAsync (env : Env) : List Event :=
  let extractedText := salvagedText env
  let extractionFailed := extractionFailedOf env
  let reportType := reportTypeOf env
  let ckEv := Event.updateReport
    { originalText := some extractedText, reportType := some reportType }
    env.checkpointOk
  if env.checkpointOk then
    let s2 := stage2 env reportType extractedText
    let finEv := Event.updateReport
      { analysis := some s2.analysis
        extractedData := some s2.extractedData
        summary := some (if extractionFailed then extractedText else s2.summary)
        status := some (if extractionFailed then "failed" else "completed") }
      env.finalOk
    if env.finalOk then
      ckEv :: s2.events ++ [finEv]
        ++ (if extractionFailed then []
            else timelinePart env reportType s2.summary s2.extractedData)
    else
      ckEv :: s2.events ++ [finEv] ++ failsafeEvents env
  else
    ckEv :: failsafeEvents env

/-- Successful report updates in a trace that set a terminal status. -/
def terminalWrites (tr : List Event) : List ReportUpdate :=
  tr.filterMap (fun e =>
    match e with
    | Event.updateReport u ok =>
        if ok && (u.status = some "completed" || u.status = some "failed")
        then some u else none
    | _ => none)

/-- Medication-creation attempts in a trace, each with whether it succeeded. -/
def medAttempts (tr : List Event) : List (InsertMedication × Bool) :=
  tr.filterMap (fun e =>
    match e with
    | Event.createMedication m ok => some (m, ok)
    | _ => none)

/-- Timeline-creation attempts in a trace. -/
def timelineCreates (tr : List Event) : List (InsertTimeline × Bool) :=
  tr.filterMap (fun e =>
    match e with
    | Event.createTimeline t ok => some (t, ok)
    | _ => none)

/-- True when no report update occurs anywhere after a timeline-creation
event in the trace. -/
def noUpdateAfterTimeline : List Event → Bool
  | [] => true
  | Event.createTimeline _ _ :: rest =>
      rest.all (fun e =>
        match e with
        | Event.updateReport _ _ => false
        | _ => true) && noUpdateAfterTimeline rest
  | _ :: rest => noUpdateAfterTimeline rest

/-! OCR resource handling from server/services/ocr.ts. -/

/-- One recognized word of the OCR result (bounding box coordinates). -/
structure OCRWord where
  text : String
  confidence : Nat
  x0 : Nat
  y0 : Nat
  x1 : Nat
  y1 : Nat
deriving DecidableEq, Repr

/-- Raw data object resolved by worker.recognize; text, confidence and words
may each be absent or empty (JS falsy), in which case the wrapper
substitutes defaults. -/
structure OCRData where
  text : Option String
  confidence : Option Nat
  words : Option (List OCRWord)
deriving DecidableEq, Repr

/-- Outcome of the race between worker.recognize and the 30-second timer:
the recognition result, a recognition error, or the timer winning. -/
inductive RecognizeOutcome where
  | ok (data : OCRData)
  | err (msg : String)
  | timeout
deriving DecidableEq, Repr

/-- Environment of one extractTextFromImage invocation: outcome of each
external call it can make.  terminate1Ok is the success-path terminate call;
terminate2Ok is the terminate attempt made inside the catch block, whose own
failure is swallowed. -/
structure OCREnv where
  createWorkerOk : Bool
  createWorkerMsg : String
  setParamsOk : Bool
  setParamsMsg : String
  recognizeOutcome : RecognizeOutcome
  terminate1Ok : Bool
  terminate1Msg : String
  terminate2Ok : Bool
deriving DecidableEq, Repr

/-- Value returned by extractTextFromImage on success, with the JS falsy
fallbacks applied to the raw recognition data. -/
structure OCRResult where
  text : String
  confidence : Nat
  words : List OCRWord
deriving DecidableEq, Repr

/-- Defaulting of the raw recognition data performed by the success return:
data.text or a no-text message, data.confidence or zero, mapped words or an
empty list. -/
def mkOCRResult (d : OCRData) : OCRResult :=
  { text :=
      match d.text with
      | some t => if t = "" then "No text detected" else t
      | none => "No text detected"
    confidence := d.confidence.getD 0
    words := d.words.getD [] }

/-- Message of the timer rejection. -/
def ocrTimeoutMessage : String :=
  "OCR timeout after 30 seconds"

/-- Wrapping applied to whatever error reaches the catch block before it is
rethrown to the caller. -/
def wrapOCRError (msg : String) : String :=
  "OCR processing failed: " ++ msg

/-- The extractTextFromImage invocation: returns either the defaulted OCR
result or the wrapped error message it rethrows, paired with the number of
worker.terminate attempts the run made.  The catch block terminates the
worker whenever one exists, swallowing a failure of that terminate and
rethrowing the original error; on the success path a throwing terminate
lands in the catch block, which then attempts a second terminate. -/
def extractTextFromImage (env : OCREnv) : Except String OCRResult × Nat :=
  if !env.createWorkerOk then
    (Except.error (wrapOCRError env.createWorkerMsg), 0)
  else if !env.setParamsOk then
    (Except.error (wrapOCRError env.setParamsMsg), 1)
  else
    match env.recognizeOutcome with
    | RecognizeOutcome.timeout =>
        (Except.error (wrapOCRError ocrTimeoutMessage), 1)
    | RecognizeOutcome.err m =>
        (Except.error (wrapOCRError m), 1)
    | RecognizeOutcome.ok d =>
        if env.terminate1Ok then
          (Except.ok (mkOCRResult d), 1)
        else
          (Except.error (wrapOCRError env.terminate1Msg), 2)

/-! Medication-record normalization from server/storage.ts. -/

/-- JS falsy or-else on a string field stored as string-or-null: the empty
string collapses to null. -/
def strOrNull (s : String) : Option String :=
  if s = "" then none else some s

/-- The stored Medication row (timestamps and the never-populated start and
end dates are not modelled). -/
structure Medication where
  id : String
  userId : String
  reportId : Option String
  name : String
  dosage : String
  frequency : String
  instructions : Option String
  sideEffects : Option String
  isActive : Option Bool
deriving DecidableEq, Repr

/-- MemStorage.createMedication: a fresh id plus the or-null normalization of
each optional field of the creation request. -/
def createMedicationStored (id : String) (m : InsertMedication) : Medication :=
  { id := id
    userId := m.userId
    reportId := strOrNull m.reportId
    name := m.name
    dosage := m.dosage
    frequency := m.frequency
    instructions := strOrNull m.instructions
    sideEffects := strOrNull m.sideEffects
    isActive := if m.isActive then some true else none }

/-! Derived views of a run used by the statements below. -/

/-- The final report update built by Stage 3 of a run. -/
def finalUpdateOf (env : Env) : ReportUpdate :=
  { analysis := some (stage2 env (reportTypeOf env) (salvagedText env)).analysis
    extractedData := some (stage2 env (reportTypeOf env) (salvagedText env)).extractedData
    summary := some (if extractionFailedOf env then salvagedText env
                     else (stage2 env (reportTypeOf env) (salvagedText env)).summary)
    status := some (if extractionFailedOf env then "failed" else "completed") }

/-- The report update written by the outer failure envelope. -/
def failsafeUpdate : ReportUpdate :=
  { status := some "failed", summary := some technicalFailureMessage }

/-- Whether a trace contains a timeline-creation event. -/
def hasTimelineEvent (tr : List Event) : Bool :=
  tr.any (fun e =>
    match e with
    | Event.createTimeline _ _ => true
    | _ => false)

/-- The timeline entry a completed run attempts to create for the fetched
report. -/
def tlEntryOf (env : Env) (r : Report) : InsertTimeline :=
  { userId := r.userId
    reportId := r.id
    eventType := if reportTypeOf env = "prescription" then "medication_change" else "lab_result"
    title := humanizeType (reportTypeOf env) ++ (" - ") ++ r.fileName
    description := (stage2 env (reportTypeOf env) (salvagedText env)).summary
    metrics := (stage2 env (reportTypeOf env) (salvagedText env)).extractedData }

/-! Concrete runs exercised by the witness theorems below. -/

/-- Fetched report used by the example runs. -/
def sampleReport : Report :=
  { id := "r1", userId := "u1", fileName := "report.pdf" }

/-- Example run: successful extraction of a blood-test text with a healthy
engine and store. -/
def envBlood : Env :=
  { extract := JsResult.ok ("blood glucose: 110, cholesterol normal")
    analyzeOutcome := JsResult.ok { summary := "Glucose slightly elevated" }
    medsOutcome := JsResult.ok []
    checkpointOk := true
    getReportMeds := some sampleReport
    medCreateOk := fun _ => true
    finalOk := true
    getReportTimeline := some sampleReport
    timelineOk := true
    failsafeOk := true }

/-- Example run: Stage-1 extraction throws. -/
def envExtractFail : Env :=
  { envBlood with extract := JsResult.exn ("OCR processing failed: OCR timeout after 30 seconds") }

/-- Example run: extraction succeeds but both engine calls throw. -/
def envAnalysisFail : Env :=
  { envBlood with
      analyzeOutcome := JsResult.exn ("model unavailable")
      medsOutcome := JsResult.exn ("model unavailable") }

/-- Example run: extraction succeeds with empty text. -/
def envEmptyText : Env :=
  { envBlood with extract := JsResult.ok ("") }

/-- Medication entries returned by the engine in the prescription examples. -/
def med1 : MedEntry :=
  { name := "Amoxicillin", dosage := "500mg", frequency := "three times daily"
    instructions := "after food", sideEffects := some ["rash"] }

def med2 : MedEntry :=
  { name := "Paracetamol", dosage := "650mg", frequency := "as needed"
    instructions := "", sideEffects := none }

def med3 : MedEntry :=
  { name := "Cetirizine", dosage := "10mg", frequency := "nightly"
    instructions := "", sideEffects := some [] }

/-- Example run: prescription document with three medication entries, where
the creation of the second entry is made to fail. -/
def envPrescription : Env :=
  { extract := JsResult.ok ("prescription for patient")
    analyzeOutcome := JsResult.ok { summary := "unused" }
    medsOutcome := JsResult.ok [med1, med2, med3]
    checkpointOk := true
    getReportMeds := some sampleReport
    medCreateOk := fun i => decide (i ≠ 1)
    finalOk := true
    getReportTimeline := some sampleReport
    timelineOk := true
    failsafeOk := true }

/-- Prescription entry whose engine data carries no side-effect list. -/
def medEntryNoSE : MedEntry :=
  { name := "Aspirin", dosage := "100mg", frequency := "daily"
    instructions := "after meals", sideEffects := none }

/-- Example run: prescription with a single entry lacking side effects. -/
def envMedNull : Env :=
  { envPrescription with
      medsOutcome := JsResult.ok [medEntryNoSE]
      medCreateOk := fun _ => true }

/-- Prescription entry with a populated side-effect list. -/
def medEntryFull : MedEntry :=
  { name := "Ibuprofen", dosage := "200mg", frequency := "twice daily"
    instructions := "with food", sideEffects := some ["nausea", "dizziness"] }

/-- Example run: prescription with a single fully-populated entry. -/
def envMedFull : Env :=
  { envMedNull with medsOutcome := JsResult.ok [medEntryFull] }

/-- OCR recognition data used by the examples. -/
def ocrSampleData : OCRData :=
  { text := some ("sample text"), confidence := some 91, words := some [] }

/-- OCR run in which recognition succeeds but the success-path terminate
call throws. -/
def ocrEnvReleaseTwice : OCREnv :=
  { createWorkerOk := true, createWorkerMsg := ""
    setParamsOk := true, setParamsMsg := ""
    recognizeOutcome := RecognizeOutcome.ok ocrSampleData
    terminate1Ok := false, terminate1Msg := "terminate failed"
    terminate2Ok := true }

/-- OCR run in which the timer wins the race. -/
def ocrEnvTimeout : OCREnv :=
  { createWorkerOk := true, createWorkerMsg := ""
    setParamsOk := true, setParamsMsg := ""
    recognizeOutcome := RecognizeOutcome.timeout
    terminate1Ok := true, terminate1Msg := "", terminate2Ok := false }

theorem run_shape_ok (env : Env) (hc : env.checkpointOk = true) (hf : env.finalOk = true) :
    processReportAsync env =
      Event.updateReport
        { originalText := some (salvagedText env), reportType := some (reportTypeOf env) } true
        :: (stage2 env (reportTypeOf env) (salvagedText env)).events
        ++ [Event.updateReport (finalUpdateOf env) true]
        ++ (if extractionFailedOf env then []
            else timelinePart env (reportTypeOf env)
              (stage2 env (reportTypeOf env) (salvagedText env)).summary
              (stage2 env (reportTypeOf env) (salvagedText env)).extractedData) := by
  simp [processReportAsync, hc, hf, finalUpdateOf]

theorem run_shape_final_fail (env : Env) (hc : env.checkpointOk = true)
    (hf : env.finalOk = false) :
    processReportAsync env =
      Event.updateReport
        { originalText := some (salvagedText env), reportType := some (reportTypeOf env) } true
        :: (stage2 env (reportTypeOf env) (salvagedText env)).events
        ++ [Event.updateReport (finalUpdateOf env) false]
        ++ failsafeEvents env := by
  simp [processReportAsync, hc, hf, finalUpdateOf]

theorem run_shape_checkpoint_fail (env : Env) (hc : env.checkpointOk = false) :
    processReportAsync env =
      Event.updateReport
        { originalText := some (salvagedText env), reportType := some (reportTypeOf env) } false
        :: failsafeEvents env := by
  simp [processReportAsync, hc]

theorem terminalWrites_append (a b : List Event) :
    terminalWrites (a ++ b) = terminalWrites a ++ terminalWrites b :=
  List.filterMap_append a b _

theorem terminalWrites_nil : terminalWrites [] = [] := rfl

theorem terminalWrites_cons_update (u : ReportUpdate) (b : Bool) (tr : List Event) :
    terminalWrites (Event.updateReport u b :: tr) =
      (if b = true ∧ (u.status = some "completed" ∨ u.status = some "failed")
       then [u] else []) ++ terminalWrites tr := by
  by_cases h : b = true ∧ (u.status = some "completed" ∨ u.status = some "failed") <;>
    simp [terminalWrites, List.filterMap_cons, h]

theorem terminalWrites_stage2 (env : Env) (rt t : String) :
    terminalWrites (stage2 env rt t).events = [] := by
  unfold stage2
  split
  · cases h : env.analyzeOutcome <;> simp [h, terminalWrites]
  · split
    · cases h : env.medsOutcome with
      | ok ms =>
          cases hr : env.getReportMeds with
          | some r =>
              simp only [h, hr, terminalWrites]
              simp [List.filterMap_map, List.filterMap_eq_nil_iff, Function.comp]
          | none => simp [h, hr, terminalWrites]
      | exn m => simp [h, terminalWrites]
    · simp [terminalWrites]

theorem terminalWrites_timelinePart (env : Env) (rt s : String)
    (ed : Option ExtractedData) :
    terminalWrites (timelinePart env rt s ed) = [] := by
  unfold timelinePart
  rcases env.getReportTimeline with _ | r <;> simp [terminalWrites]

theorem terminalWrites_failsafe (env : Env) :
    terminalWrites (failsafeEvents env) =
      if env.failsafeOk then [failsafeUpdate] else [] := by
  rcases h : env.failsafeOk <;>
    simp [failsafeEvents, terminalWrites, failsafeUpdate, h]

theorem terminalWrites_finalEvent (env : Env) :
    terminalWrites [Event.updateReport (finalUpdateOf env) true] = [finalUpdateOf env] := by
  rcases h : extractionFailedOf env <;> simp [terminalWrites, finalUpdateOf, h]

/-- Closed form of the successful terminal status writes of any run. -/
theorem terminalWrites_run (env : Env) :
    terminalWrites (processReportAsync env) =
      if env.checkpointOk && env.finalOk then [finalUpdateOf env]
      else if env.failsafeOk then [failsafeUpdate] else [] := by
  rcases hx : extractionFailedOf env with _ | _ <;>
    rcases hc : env.checkpointOk with _ | _ <;>
    rcases hf : env.finalOk with _ | _ <;>
    simp [processReportAsync, hx, hc, hf, terminalWrites_cons_update, terminalWrites_append,
      terminalWrites_stage2, terminalWrites_nil, terminalWrites_timelinePart,
      terminalWrites_failsafe, finalUpdateOf, failsafeUpdate]

theorem medAttempts_append (a b : List Event) :
    medAttempts (a ++ b) = medAttempts a ++ medAttempts b :=
  List.filterMap_append a b _

theorem medAttempts_timelinePart (env : Env) (rt s : String) (ed : Option ExtractedData) :
    medAttempts (timelinePart env rt s ed) = [] := by
  rcases h : env.getReportTimeline with _ | r <;> simp [timelinePart, medAttempts, h]

theorem filterMap_some_map {α β : Type} (g : α → β) (l : List α) :
    List.filterMap (fun a => some (g a)) l = List.map g l := by
  induction l with
  | nil => rfl
  | cons a l ih => simp [List.filterMap_cons, ih]

theorem medAttempts_stage2_prescription (env : Env) (t : String) (ms : List MedEntry)
    (r : Report) (hm : env.medsOutcome = JsResult.ok ms) (hr : env.getReportMeds = some r) :
    medAttempts (stage2 env ("prescription") t).events =
      ms.enum.map (fun p => (mkInsertMed r p.2, env.medCreateOk p.1)) := by
  simp [stage2, hm, hr, medAttempts, List.filterMap_cons, List.filterMap_map]
  exact filterMap_some_map
    (fun p : Nat × MedEntry => (mkInsertMed r p.2, env.medCreateOk p.1)) ms.enum

/-- The classifier only ever returns one of its four tags. -/
theorem detectDocumentType_cases (t : String) :
    detectDocumentType t = "prescription" ∨ detectDocumentType t = "blood_test"
      ∨ detectDocumentType t = "x-ray" ∨ detectDocumentType t = "general" := by
  simp only [detectDocumentType]
  split
  · simp
  · split
    · simp
    · split <;> simp

/-- The report type a run determines is one of the four classifier tags. -/
theorem reportTypeOf_cases (env : Env) :
    reportTypeOf env = "prescription" ∨ reportTypeOf env = "blood_test"
      ∨ reportTypeOf env = "x-ray" ∨ reportTypeOf env = "general" := by
  unfold reportTypeOf
  rcases h : env.extract with t | m
  · simp only [h]
    by_cases hl : t.length > 0
    · simpa [hl] using detectDocumentType_cases t
    · simp [hl]
  · simp [h]

/-- A prescription report type can only arise from a successful extraction. -/
theorem extraction_ok_of_prescription (env : Env)
    (hp : reportTypeOf env = "prescription") : extractionFailedOf env = false := by
  unfold reportTypeOf at hp
  unfold extractionFailedOf
  rcases h : env.extract with t | m
  · rfl
  · rw [h] at hp
    simp at hp

theorem medAttempts_nil : medAttempts [] = [] := rfl

theorem medAttempts_cons_update (u : ReportUpdate) (b : Bool) (tr : List Event) :
    medAttempts (Event.updateReport u b :: tr) = medAttempts tr := by
  simp [medAttempts, List.filterMap_cons]

theorem medAttempts_failsafe (env : Env) : medAttempts (failsafeEvents env) = [] := by
  simp [failsafeEvents, medAttempts]

theorem medAttempts_run (env : Env) (r : Report) (ms : List MedEntry)
    (hc : env.checkpointOk = true)
    (hp : reportTypeOf env = "prescription")
    (hm : env.medsOutcome = JsResult.ok ms)
    (hr : env.getReportMeds = some r) :
    medAttempts (processReportAsync env) =
      ms.enum.map (fun p => (mkInsertMed r p.2, env.medCreateOk p.1)) := by
  have hx := extraction_ok_of_prescription env hp
  have hs2 := medAttempts_stage2_prescription env (salvagedText env) ms r hm hr
  rcases hf : env.finalOk with _ | _
  · rw [run_shape_final_fail env hc hf, hp]
    simp [medAttempts_append, hs2, medAttempts_cons_update, medAttempts_failsafe,
      medAttempts_nil]
  · rw [run_shape_ok env hc hf, hp, hx]
    simp [medAttempts_append, hs2, medAttempts_cons_update, medAttempts_nil,
      medAttempts_timelinePart]

theorem noUpdateAfterTimeline_of_no_timeline (tr : List Event)
    (h : hasTimelineEvent tr = false) : noUpdateAfterTimeline tr = true := by
  induction tr with
  | nil => rfl
  | cons e rest ih =>
      cases e with
      | createTimeline t b => simp [hasTimelineEvent] at h
      | updateReport u b =>
          simp only [hasTimelineEvent, List.any_cons, Bool.false_or] at h
          simp only [noUpdateAfterTimeline]
          exact ih h
      | getReport g =>
          simp only [hasTimelineEvent, List.any_cons, Bool.false_or] at h
          simp only [noUpdateAfterTimeline]
          exact ih h
      | callAnalyze t o =>
          simp only [hasTimelineEvent, List.any_cons, Bool.false_or] at h
          simp only [noUpdateAfterTimeline]
          exact ih h
      | callExtractMeds t o =>
          simp only [hasTimelineEvent, List.any_cons, Bool.false_or] at h
          simp only [noUpdateAfterTimeline]
          exact ih h
      | createMedication m b =>
          simp only [hasTimelineEvent, List.any_cons, Bool.false_or] at h
          simp only [noUpdateAfterTimeline]
          exact ih h

theorem noUpdateAfterTimeline_append (a b : List Event)
    (h : hasTimelineEvent a = false) :
    noUpdateAfterTimeline (a ++ b) = noUpdateAfterTimeline b := by
  induction a with
  | nil => rfl
  | cons e rest ih =>
      cases e with
      | createTimeline t o => simp [hasTimelineEvent] at h
      | updateReport u o =>
          simp only [hasTimelineEvent, List.any_cons, Bool.false_or] at h
          simp only [List.cons_append, noUpdateAfterTimeline]
          exact ih h
      | getReport g =>
          simp only [hasTimelineEvent, List.any_cons, Bool.false_or] at h
          simp only [List.cons_append, noUpdateAfterTimeline]
          exact ih h
      | callAnalyze t o =>
          simp only [hasTimelineEvent, List.any_cons, Bool.false_or] at h
          simp only [List.cons_append, noUpdateAfterTimeline]
          exact ih h
      | callExtractMeds t o =>
          simp only [hasTimelineEvent, List.any_cons, Bool.false_or] at h
          simp only [List.cons_append, noUpdateAfterTimeline]
          exact ih h
      | createMedication m o =>
          simp only [hasTimelineEvent, List.any_cons, Bool.false_or] at h
          simp only [List.cons_append, noUpdateAfterTimeline]
          exact ih h

theorem hasTimelineEvent_stage2 (env : Env) (rt t : String) :
    hasTimelineEvent (stage2 env rt t).events = false := by
  unfold stage2
  split
  · cases h : env.analyzeOutcome <;> simp [h, hasTimelineEvent]
  · split
    · cases h : env.medsOutcome with
      | ok ms =>
          cases hr : env.getReportMeds with
          | some r =>
              simp only [h, hr, hasTimelineEvent]
              simp [List.any_map, Function.comp]
              intro x i m _ hx
              subst hx
              rfl
          | none => simp [h, hr, hasTimelineEvent]
      | exn m => simp [h, hasTimelineEvent]
    · simp [hasTimelineEvent]

/-- In every run, no report update happens after a timeline-creation event:
a timeline failure cannot change the already-persisted terminal status. -/
theorem noUpdateAfterTimeline_run (env : Env) :
    noUpdateAfterTimeline (processReportAsync env) = true := by
  rcases hc : env.checkpointOk with _ | _
  · rw [run_shape_checkpoint_fail env hc]
    apply noUpdateAfterTimeline_of_no_timeline
    simp [hasTimelineEvent, failsafeEvents]
  · rcases hf : env.finalOk with _ | _
    · rw [run_shape_final_fail env hc hf]
      apply noUpdateAfterTimeline_of_no_timeline
      have hs := hasTimelineEvent_stage2 env (reportTypeOf env) (salvagedText env)
      simp only [hasTimelineEvent, List.any_append, List.any_cons] at hs ⊢
      simp [hs, failsafeEvents]
    · rcases hx : extractionFailedOf env with _ | _
      · rw [run_shape_ok env hc hf, if_neg (by simp [hx])]
        rw [noUpdateAfterTimeline_append]
        · rcases hg : env.getReportTimeline with _ | r <;>
            simp [timelinePart, hg, noUpdateAfterTimeline]
        · have hs := hasTimelineEvent_stage2 env (reportTypeOf env) (salvagedText env)
          simp only [hasTimelineEvent, List.any_append, List.any_cons] at hs ⊢
          simp [hs]
      · rw [run_shape_ok env hc hf, if_pos hx]
        apply noUpdateAfterTimeline_of_no_timeline
        have hs := hasTimelineEvent_stage2 env (reportTypeOf env) (salvagedText env)
        simp only [hasTimelineEvent, List.any_append, List.any_cons] at hs ⊢
        simp [hs]

theorem timelineCreates_append (a b : List Event) :
    timelineCreates (a ++ b) = timelineCreates a ++ timelineCreates b :=
  List.filterMap_append a b _

theorem timelineCreates_stage2 (env : Env) (rt t : String) :
    timelineCreates (stage2 env rt t).events = [] := by
  unfold stage2
  split
  · cases h : env.analyzeOutcome <;> simp [h, timelineCreates]
  · split
    · cases h : env.medsOutcome with
      | ok ms =>
          cases hr : env.getReportMeds with
          | some r =>
              simp only [h, hr, timelineCreates]
              simp [List.filterMap_map, List.filterMap_eq_nil_iff, Function.comp]
          | none => simp [h, hr, timelineCreates]
      | exn m => simp [h, timelineCreates]
    · simp [timelineCreates]

theorem timelineCreates_nil : timelineCreates [] = [] := rfl

theorem timelineCreates_cons_update (u : ReportUpdate) (b : Bool) (tr : List Event) :
    timelineCreates (Event.updateReport u b :: tr) = timelineCreates tr := by
  simp [timelineCreates, List.filterMap_cons]

theorem timelineCreates_failsafe (env : Env) :
    timelineCreates (failsafeEvents env) = [] := by
  simp [failsafeEvents, timelineCreates]

theorem timelineCreates_timelinePart (env : Env) (rt s : String)
    (ed : Option ExtractedData) :
    timelineCreates (timelinePart env rt s ed) =
      (match env.getReportTimeline with
       | some r =>
           [({ userId := r.userId
               reportId := r.id
               eventType := if rt = "prescription" then "medication_change" else "lab_result"
               title := humanizeType rt ++ (" - ") ++ r.fileName
               description := s
               metrics := ed : InsertTimeline }, env.timelineOk)]
       | none => []) := by
  rcases h : env.getReportTimeline with _ | r <;> simp [timelinePart, timelineCreates, h]

/-- Closed form of the timeline-creation attempts of any run. -/
theorem timelineCreates_run (env : Env) :
    timelineCreates (processReportAsync env) =
      if env.checkpointOk = true ∧ env.finalOk = true ∧ extractionFailedOf env = false then
        (match env.getReportTimeline with
         | some r => [(tlEntryOf env r, env.timelineOk)]
         | none => [])
      else [] := by
  rcases hc : env.checkpointOk with _ | _
  · rw [run_shape_checkpoint_fail env hc]
    simp [timelineCreates_cons_update, timelineCreates_failsafe, hc]
  · rcases hf : env.finalOk with _ | _
    · rw [run_shape_final_fail env hc hf]
      simp [timelineCreates_append, timelineCreates_cons_update, timelineCreates_stage2,
        timelineCreates_failsafe, timelineCreates_nil, hf]
    · rcases hx : extractionFailedOf env with _ | _
      · rw [run_shape_ok env hc hf, if_neg (by simp [hx])]
        rw [timelineCreates_append, timelineCreates_append, timelineCreates_cons_update]
        simp [timelineCreates_stage2, timelineCreates_nil, timelineCreates_cons_update,
          timelineCreates_timelinePart, tlEntryOf, hc, hf, hx]
      · rw [run_shape_ok env hc hf, if_pos hx]
        simp [timelineCreates_append, timelineCreates_cons_update, timelineCreates_stage2,
          timelineCreates_nil, hx]

theorem char_toNat_ofNat_valid (n : Nat) (h : n.isValidChar) :
    (Char.ofNat n).toNat = n := by
  simp [Char.ofNat, h, Char.ofNatAux, Char.toNat, UInt32.toNat, BitVec.toNat_ofNatLt]

theorem charToLower_idem (c : Char) :
    Char.toLower (Char.toLower c) = Char.toLower c := by
  by_cases h : c.toNat ≥ 65 ∧ c.toNat ≤ 90
  · have hv : Nat.isValidChar (c.toNat + 32) := Or.inl (by omega)
    have ht : (Char.ofNat (c.toNat + 32)).toNat = c.toNat + 32 :=
      char_toNat_ofNat_valid _ hv
    have h1 : Char.toLower c = Char.ofNat (c.toNat + 32) := by
      simp only [Char.toLower]
      rw [if_pos h]
    rw [h1]
    simp only [Char.toLower]
    rw [ht, if_neg (by omega)]
  · have h1 : Char.toLower c = c := by
      simp only [Char.toLower]
      rw [if_neg h]
    rw [h1, h1]

theorem toLowerCase_idem (s : String) :
    toLowerCase (toLowerCase s) = toLowerCase s := by
  unfold toLowerCase
  apply congrArg String.mk
  show List.map Char.toLower (List.map Char.toLower s.data) = List.map Char.toLower s.data
  rw [List.map_map]
  exact List.map_congr_left (fun c _ => charToLower_idem c)

theorem reportTypeOf_of_failed (env : Env) (hx : extractionFailedOf env = true) :
    reportTypeOf env = "general" := by
  unfold extractionFailedOf at hx
  unfold reportTypeOf
  rcases h : env.extract with t | m
  · rw [h] at hx
    simp at hx
  · simp [h]

/-- Claim C1: in every run whose Stage-3 terminal report write is reached and
accepted by the store (the checkpoint and final updates succeed), the
persisted status is failed if and only if Stage-1 extraction did not
succeed; when extraction failed the persisted summary is the extraction
failure message; and an analysis-engine failure alone still yields status
completed (the status is completed whenever extraction succeeded). -/
theorem report_status_iff_extraction (env : Env)
    (hc : env.checkpointOk = true) (hf : env.finalOk = true) :
    terminalWrites (processReportAsync env) = [finalUpdateOf env] ∧
    ((finalUpdateOf env).status = some "failed" ↔ extractionFailedOf env = true) ∧
    (extractionFailedOf env = false → (finalUpdateOf env).status = some "completed") ∧
    (extractionFailedOf env = true → (finalUpdateOf env).summary = some (salvagedText env)) := by
  refine ⟨?_, ?_, ?_, ?_⟩
  · rw [terminalWrites_run]
    simp [hc, hf]
  · rcases hx : extractionFailedOf env with _ | _ <;> simp [finalUpdateOf, hx]
  · intro hx
    simp [finalUpdateOf, hx]
  · intro hx
    simp [finalUpdateOf, hx]

/-- Witness for C1 at a concrete failed-extraction run. -/
theorem report_status_iff_extraction_witness :
    terminalWrites (processReportAsync envExtractFail) = [finalUpdateOf envExtractFail] ∧
    ((finalUpdateOf envExtractFail).status = some "failed" ↔
      extractionFailedOf envExtractFail = true) ∧
    (extractionFailedOf envExtractFail = false →
      (finalUpdateOf envExtractFail).status = some "completed") ∧
    (extractionFailedOf envExtractFail = true →
      (finalUpdateOf envExtractFail).summary = some (salvagedText envExtractFail)) :=
  report_status_iff_extraction envExtractFail rfl rfl

/-- Claim C2: every orchestrator invocation terminates (it is a total
function of its environment) with at most one successful terminal status
write on any environment, and exactly one whenever the report store accepts
the final write and the failure-envelope write; so a report never receives
two conflicting terminal writes. -/
theorem orchestrator_single_terminal_write (env : Env) :
    (terminalWrites (processReportAsync env)).length ≤ 1 ∧
    (env.finalOk = true → env.failsafeOk = true →
      (terminalWrites (processReportAsync env)).length = 1) := by
  rw [terminalWrites_run]
  rcases hc : env.checkpointOk with _ | _ <;>
    rcases hf : env.finalOk with _ | _ <;>
    rcases hs : env.failsafeOk with _ | _ <;>
    simp [hc, hf, hs]

/-- Witness for C2 at a concrete healthy run. -/
theorem orchestrator_single_terminal_write_witness :
    (terminalWrites (processReportAsync envBlood)).length = 1 :=
  (orchestrator_single_terminal_write envBlood).2 rfl rfl

/-- Claim C8: the document classifier is a pure function (equal inputs give
equal outputs), is invariant under lowering the input's case, and gives
prescription keywords precedence: any text containing a prescription
keyword, in particular one containing both a prescription keyword and a
blood keyword, is classified prescription. -/
theorem classifier_deterministic_precedence (s t : String) :
    (s = t → detectDocumentType s = detectDocumentType t) ∧
    detectDocumentType (toLowerCase s) = detectDocumentType s ∧
    ((includes (toLowerCase s) ("prescription") || includes (toLowerCase s) ("medication")
        || includes (toLowerCase s) ("dosage")) = true →
      detectDocumentType s = "prescription") ∧
    (includes (toLowerCase s) ("prescription") = true →
      includes (toLowerCase s) ("blood") = true →
      detectDocumentType s = "prescription") := by
  refine ⟨fun h => by rw [h], ?_, ?_, ?_⟩
  · unfold detectDocumentType
    rw [toLowerCase_idem]
  · intro h
    unfold detectDocumentType
    simp [h]
  · intro h1 h2
    unfold detectDocumentType
    simp [h1]

/-- Witness for C8: a mixed-case text containing both a prescription keyword
and a blood keyword is classified prescription. -/
theorem classifier_deterministic_precedence_witness :
    detectDocumentType ("Prescription: blood glucose panel") = "prescription" :=
  (classifier_deterministic_precedence ("Prescription: blood glucose panel") "").2.2.2
    (by decide) (by decide)

/-- Claim C3: in any run where extraction succeeded, the dispatched analysis
engine call throws, and the store accepts the checkpoint and final writes,
the exception is absorbed inside the analysis stage: the terminal write has
status completed, summary equal to the generic fallback text, extractedData
equal to the fixed placeholder object, and a null analysis — never the raw
exception. -/
theorem analysis_failure_absorbed (env : Env) (e1 e2 : String)
    (hc : env.checkpointOk = true) (hf : env.finalOk = true)
    (hx : extractionFailedOf env = false)
    (ha : env.analyzeOutcome = JsResult.exn e1)
    (hm : env.medsOutcome = JsResult.exn e2)
    (hxr : reportTypeOf env ≠ "x-ray") :
    terminalWrites (processReportAsync env) = [finalUpdateOf env] ∧
    (finalUpdateOf env).status = some "completed" ∧
    (finalUpdateOf env).summary = some fallbackSummary ∧
    (finalUpdateOf env).extractedData = some (some ExtractedData.placeholder) ∧
    (finalUpdateOf env).analysis = some none := by
  have hs : (stage2 env (reportTypeOf env) (salvagedText env)).summary = fallbackSummary ∧
      (stage2 env (reportTypeOf env) (salvagedText env)).extractedData =
        some ExtractedData.placeholder ∧
      (stage2 env (reportTypeOf env) (salvagedText env)).analysis = none := by
    rcases reportTypeOf_cases env with h | h | h | h
    · rw [h]
      simp [stage2, hm]
    · rw [h]
      simp [stage2, ha]
    · exact absurd h hxr
    · rw [h]
      simp [stage2, ha]
  refine ⟨?_, ?_, ?_, ?_, ?_⟩
  · rw [terminalWrites_run]
    simp [hc, hf]
  · simp [finalUpdateOf, hx]
  · simp [finalUpdateOf, hx, hs.1]
  · simp [finalUpdateOf, hs.2.1]
  · simp [finalUpdateOf, hs.2.2]

/-- Witness for C3 at a concrete run whose engine calls throw. -/
theorem analysis_failure_absorbed_witness :
    terminalWrites (processReportAsync envAnalysisFail) = [finalUpdateOf envAnalysisFail] ∧
    (finalUpdateOf envAnalysisFail).status = some "completed" ∧
    (finalUpdateOf envAnalysisFail).summary = some fallbackSummary ∧
    (finalUpdateOf envAnalysisFail).extractedData = some (some ExtractedData.placeholder) ∧
    (finalUpdateOf envAnalysisFail).analysis = some none :=
  analysis_failure_absorbed envAnalysisFail ("model unavailable") ("model unavailable")
    rfl rfl rfl rfl rfl (by decide)

/-- Claim C4: in any prescription run where the engine returned the list ms
and the store accepted the checkpoint and final writes, the pipeline
attempts one medication creation per entry of ms, in order, each succeeding
or failing per its own injected outcome, and the run still reaches status
completed regardless of those outcomes. -/
theorem medication_per_item_isolation (env : Env) (r : Report) (ms : List MedEntry)
    (hc : env.checkpointOk = true) (hf : env.finalOk = true)
    (hp : reportTypeOf env = "prescription")
    (hm : env.medsOutcome = JsResult.ok ms)
    (hr : env.getReportMeds = some r) :
    medAttempts (processReportAsync env) =
      ms.enum.map (fun p => (mkInsertMed r p.2, env.medCreateOk p.1)) ∧
    (medAttempts (processReportAsync env)).length = ms.length ∧
    terminalWrites (processReportAsync env) = [finalUpdateOf env] ∧
    (finalUpdateOf env).status = some "completed" := by
  have hma := medAttempts_run env r ms hc hp hm hr
  have hx := extraction_ok_of_prescription env hp
  refine ⟨hma, ?_, ?_, ?_⟩
  · rw [hma]
    simp
  · rw [terminalWrites_run]
    simp [hc, hf]
  · simp [finalUpdateOf, hx]

/-- Witness for C4: with a failure injected for the second of three entries,
the first and third are still created and the run completes. -/
theorem medication_per_item_isolation_witness :
    medAttempts (processReportAsync envPrescription) =
      [(mkInsertMed sampleReport med1, true), (mkInsertMed sampleReport med2, false),
       (mkInsertMed sampleReport med3, true)] ∧
    (finalUpdateOf envPrescription).status = some "completed" := by
  have h := medication_per_item_isolation envPrescription sampleReport [med1, med2, med3]
    rfl rfl (by decide) rfl rfl
  exact ⟨by rw [h.1]; rfl, h.2.2.2⟩

/-- Claim C5: in every run whose checkpoint write is accepted, the very first
collaborator interaction is the checkpoint update carrying originalText and
reportType (so it happens after Stage 1 and before any Stage-2 work,
regardless of extraction success), and when extraction failed the next
interaction is the analysis-engine dispatch on the salvaged text. -/
theorem checkpoint_precedes_analysis (env : Env) (hc : env.checkpointOk = true) :
    (processReportAsync env)[0]? =
      some (Event.updateReport
        { originalText := some (salvagedText env), reportType := some (reportTypeOf env) } true) ∧
    (extractionFailedOf env = true →
      (processReportAsync env)[1]? =
        some (Event.callAnalyze (salvagedText env) env.analyzeOutcome)) := by
  constructor
  · rcases hf : env.finalOk with _ | _
    · rw [run_shape_final_fail env hc hf]
      simp
    · rw [run_shape_ok env hc hf]
      simp
  · intro hx
    have hrt := reportTypeOf_of_failed env hx
    rcases hf : env.finalOk with _ | _
    · rw [run_shape_final_fail env hc hf, hrt]
      cases ho : env.analyzeOutcome <;> simp [stage2, ho]
    · rw [run_shape_ok env hc hf, hrt]
      cases ho : env.analyzeOutcome <;> simp [stage2, ho]

/-- Witness for C5 at a concrete failed-extraction run. -/
theorem checkpoint_precedes_analysis_witness :
    (processReportAsync envExtractFail)[0]? =
      some (Event.updateReport
        { originalText := some (salvagedText envExtractFail)
          reportType := some (reportTypeOf envExtractFail) } true) ∧
    (processReportAsync envExtractFail)[1]? =
      some (Event.callAnalyze (salvagedText envExtractFail) envExtractFail.analyzeOutcome) :=
  ⟨(checkpoint_precedes_analysis envExtractFail rfl).1,
   (checkpoint_precedes_analysis envExtractFail rfl).2 rfl⟩

/-- Claim C6 counterexample: the claim that the OCR worker session sees at
most one release attempt per invocation fails on the concrete run in which
recognition succeeds and the success-path terminate call itself throws: the
catch block then attempts a second terminate, so two release attempts are
made. -/
theorem ocr_release_at_most_once_counterexample :
    (extractTextFromImage ocrEnvReleaseTwice).2 = 2 ∧
    ¬ ((extractTextFromImage ocrEnvReleaseTwice).2 ≤ 1) ∧
    (extractTextFromImage ocrEnvReleaseTwice).1 =
      Except.error (wrapOCRError ("terminate failed")) := by
  refine ⟨by decide, by decide, rfl⟩

/-- Claim C6, amended: the worker session is released on every path on which
it was created (at least one terminate attempt whenever createWorker
succeeded), with at most two attempts overall and a second attempt exactly
when the success-path release itself throws — and in that two-attempt case
the reported cause is that release failure's own message; in the timeout
scenario the release is attempted exactly once and the reported cause is
the timeout message; on the recognition-error path the release is attempted
exactly once and the reported cause is the original recognition error — a
failure of the handler's own release never replaces either. -/
theorem ocr_release_amended (env : OCREnv) :
    (extractTextFromImage env).2 ≤ 2 ∧
    ((extractTextFromImage env).2 = 2 ↔
      env.createWorkerOk = true ∧ env.setParamsOk = true ∧ env.terminate1Ok = false ∧
        (∃ d, env.recognizeOutcome = RecognizeOutcome.ok d)) ∧
    (env.createWorkerOk = true → 1 ≤ (extractTextFromImage env).2) ∧
    (env.createWorkerOk = true → env.setParamsOk = true →
      env.recognizeOutcome = RecognizeOutcome.timeout →
      (extractTextFromImage env).2 = 1 ∧
        (extractTextFromImage env).1 = Except.error (wrapOCRError ocrTimeoutMessage)) ∧
    (∀ m, env.createWorkerOk = true → env.setParamsOk = true →
      env.recognizeOutcome = RecognizeOutcome.err m →
      (extractTextFromImage env).2 = 1 ∧
        (extractTextFromImage env).1 = Except.error (wrapOCRError m)) ∧
    (∀ d, env.createWorkerOk = true → env.setParamsOk = true →
      env.recognizeOutcome = RecognizeOutcome.ok d → env.terminate1Ok = false →
      (extractTextFromImage env).2 = 2 ∧
        (extractTextFromImage env).1 = Except.error (wrapOCRError env.terminate1Msg)) := by
  rcases hw : env.createWorkerOk with _ | _ <;>
    rcases hs : env.setParamsOk with _ | _ <;>
    rcases hr : env.recognizeOutcome with d | m <;>
    rcases ht : env.terminate1Ok with _ | _ <;>
    simp [extractTextFromImage, hw, hs, hr, ht]

/-- Witness for the amended C6 at the concrete timeout run. -/
theorem ocr_release_amended_witness :
    (extractTextFromImage ocrEnvTimeout).2 = 1 ∧
    (extractTextFromImage ocrEnvTimeout).1 = Except.error (wrapOCRError ocrTimeoutMessage) :=
  (ocr_release_amended ocrEnvTimeout).2.2.2.1 rfl rfl rfl

/-- Claim C7: a timeline entry is attempted only in runs whose terminal
status write is completed: a failed extraction yields zero timeline
creations; any run with a timeline creation has the single terminal write
with status completed; and no report update ever follows a timeline
creation, so a timeline failure cannot change the persisted status. -/
theorem timeline_only_on_completed (env : Env) :
    (extractionFailedOf env = true → timelineCreates (processReportAsync env) = []) ∧
    (timelineCreates (processReportAsync env) ≠ [] →
      terminalWrites (processReportAsync env) = [finalUpdateOf env] ∧
      (finalUpdateOf env).status = some "completed") ∧
    noUpdateAfterTimeline (processReportAsync env) = true := by
  refine ⟨?_, ?_, noUpdateAfterTimeline_run env⟩
  · intro hx
    rw [timelineCreates_run]
    simp [hx]
  · intro hne
    rw [timelineCreates_run] at hne
    by_cases h : env.checkpointOk = true ∧ env.finalOk = true ∧ extractionFailedOf env = false
    · refine ⟨?_, ?_⟩
      · rw [terminalWrites_run]
        simp [h.1, h.2.1]
      · simp [finalUpdateOf, h.2.2]
    · rw [if_neg h] at hne
      exact absurd rfl hne

/-- Witness for C7 at a concrete completed run with a timeline creation. -/
theorem timeline_only_on_completed_witness :
    terminalWrites (processReportAsync envBlood) = [finalUpdateOf envBlood] ∧
    (finalUpdateOf envBlood).status = some "completed" :=
  (timeline_only_on_completed envBlood).2.1 (by decide)

/-- Claim C9: in any run where extraction succeeds with empty text and the
store accepts the checkpoint and final writes, the checkpoint records
reportType general (the classifier guard skips empty text), the analysis
dispatch is still entered with the empty text as the next interaction,
emptiness is not recorded as an extraction failure, and the run's terminal
write has status completed. -/
theorem empty_extraction_proceeds (env : Env)
    (hc : env.checkpointOk = true) (hf : env.finalOk = true)
    (he : env.extract = JsResult.ok ("")) :
    reportTypeOf env = "general" ∧
    (processReportAsync env)[0]? =
      some (Event.updateReport
        { originalText := some (""), reportType := some "general" } true) ∧
    (processReportAsync env)[1]? =
      some (Event.callAnalyze ("") env.analyzeOutcome) ∧
    extractionFailedOf env = false ∧
    terminalWrites (processReportAsync env) = [finalUpdateOf env] ∧
    (finalUpdateOf env).status = some "completed" := by
  have hrt : reportTypeOf env = "general" := by
    unfold reportTypeOf
    simp [he]
  have hsv : salvagedText env = "" := by
    unfold salvagedText
    simp [he]
  have hx : extractionFailedOf env = false := by
    unfold extractionFailedOf
    simp [he]
  refine ⟨hrt, ?_, ?_, hx, ?_, ?_⟩
  · rw [run_shape_ok env hc hf, hrt, hsv]
    simp
  · rw [run_shape_ok env hc hf, hrt, hsv]
    cases ho : env.analyzeOutcome <;> simp [stage2, ho]
  · rw [terminalWrites_run]
    simp [hc, hf]
  · simp [finalUpdateOf, hx]

/-- Witness for C9 at a concrete empty-text run. -/
theorem empty_extraction_proceeds_witness :
    reportTypeOf envEmptyText = "general" ∧
    (processReportAsync envEmptyText)[0]? =
      some (Event.updateReport
        { originalText := some (""), reportType := some "general" } true) ∧
    (processReportAsync envEmptyText)[1]? =
      some (Event.callAnalyze ("") envEmptyText.analyzeOutcome) ∧
    extractionFailedOf envEmptyText = false ∧
    terminalWrites (processReportAsync envEmptyText) = [finalUpdateOf envEmptyText] ∧
    (finalUpdateOf envEmptyText).status = some "completed" :=
  empty_extraction_proceeds envEmptyText rfl rfl rfl

/-- Claim C10 counterexample: the claim that every pipeline-created
Medication record carries sideEffects equal to the joined list, with the
empty string when the engine gave none, fails on the stored record: for an
entry without side effects the pipeline passes the empty string and the
storage layer normalizes it to null, so the stored field is none rather
than the empty string. -/
theorem medication_sideeffects_counterexample :
    medAttempts (processReportAsync envMedNull) =
      [(mkInsertMed sampleReport medEntryNoSE, true)] ∧
    (mkInsertMed sampleReport medEntryNoSE).sideEffects = "" ∧
    (createMedicationStored ("m1") (mkInsertMed sampleReport medEntryNoSE)).sideEffects
      = none ∧
    ¬ ((createMedicationStored ("m1") (mkInsertMed sampleReport medEntryNoSE)).sideEffects
        = some ("")) := by
  refine ⟨by rfl, rfl, rfl, by decide⟩

/-- Claim C10, amended: every medication record the pipeline creates has
isActive true, userId equal to the owning report's userId, and reportId
equal to the fetched report's id; after the storage layer's normalization
the stored record keeps that owner, stores isActive as true, stores
reportId as the report id unless that id is empty, and stores sideEffects
as the engine entry's list joined with a comma-space when that join is
nonempty and as null when the engine gave no (or only empty) side effects. -/
theorem medication_record_fields (env : Env) (r : Report) (ms : List MedEntry) (id : String)
    (hc : env.checkpointOk = true)
    (hp : reportTypeOf env = "prescription")
    (hm : env.medsOutcome = JsResult.ok ms)
    (hr : env.getReportMeds = some r) :
    ∀ m ok, (m, ok) ∈ medAttempts (processReportAsync env) →
      m.isActive = true ∧ m.userId = r.userId ∧ m.reportId = r.id ∧
      (createMedicationStored id m).userId = r.userId ∧
      (createMedicationStored id m).isActive = some true ∧
      (createMedicationStored id m).reportId = (if r.id = "" then none else some r.id) ∧
      (∃ e ∈ ms,
        m.sideEffects = String.intercalate (", ") (e.sideEffects.getD []) ∧
        (createMedicationStored id m).sideEffects =
          (if String.intercalate (", ") (e.sideEffects.getD []) = "" then none
           else some (String.intercalate (", ") (e.sideEffects.getD [])))) := by
  intro m ok hmem
  rw [medAttempts_run env r ms hc hp hm hr] at hmem
  rw [List.mem_map] at hmem
  obtain ⟨p, hpe, heq⟩ := hmem
  rcases p with ⟨i, e⟩
  have he : e ∈ ms := by
    have := List.mem_map_of_mem Prod.snd hpe
    rwa [List.enum_map_snd] at this
  injection heq with h1 h2
  subst h1
  refine ⟨rfl, rfl, rfl, rfl, rfl, rfl, e, he, rfl, rfl⟩

/-- Witness for the amended C10 at a concrete prescription run. -/
theorem medication_record_fields_witness :
    (mkInsertMed sampleReport medEntryFull).isActive = true ∧
    (mkInsertMed sampleReport medEntryFull).userId = sampleReport.userId ∧
    (mkInsertMed sampleReport medEntryFull).reportId = sampleReport.id ∧
    (createMedicationStored ("m7") (mkInsertMed sampleReport medEntryFull)).userId
      = sampleReport.userId ∧
    (createMedicationStored ("m7") (mkInsertMed sampleReport medEntryFull)).isActive
      = some true ∧
    (createMedicationStored ("m7") (mkInsertMed sampleReport medEntryFull)).reportId
      = (if sampleReport.id = "" then none else some sampleReport.id) ∧
    (∃ e ∈ [medEntryFull],
      (mkInsertMed sampleReport medEntryFull).sideEffects =
        String.intercalate (", ") (e.sideEffects.getD []) ∧
      (createMedicationStored ("m7") (mkInsertMed sampleReport medEntryFull)).sideEffects =
        (if String.intercalate (", ") (e.sideEffects.getD []) = "" then none
         else some (String.intercalate (", ") (e.sideEffects.getD [])))) :=
  medication_record_fields envMedFull sampleReport [medEntryFull] ("m7")
    rfl (by decide) rfl rfl (mkInsertMed sampleReport medEntryFull) true (by decide)

end MedReport
